import Mathlib

/-!
Verification of the FootSegmentation repository (3D Slicer extension).

The file has two parts.

1. An embedding of the segmentation engine (sliding-window tiler, mask
   accumulator, thresholding pipeline).  The class `FootSegmentationLogic`
   is referenced by `FootSegmentation.py` (`runSegmentation`, `getModelPath`)
   but its source is not included in the repository, so these definitions are
   modelled from the specification's component contracts.

2. An embedding of the UI widget `FootSegmentationWidget` taken directly from
   `FootSegmentation.py`: slider configuration, button enablement, the
   Segment-button handler, and its exception handling.
-/

/-! ## Part 1: segmentation engine (modelled from the spec) -/

/-- Modelled from the spec: per-axis window stride,
`stride = window_size * (1 - overlap)`, rounded to at least 1 voxel.
(`FootSegmentationLogic` is referenced in `FootSegmentation.py` but its
source is not included.) -/
def strideOf (W : ℕ) (o : ℚ) : ℕ :=
  max 1 ⌊(W : ℚ) * (1 - o)⌋₊

/-- Modelled from the spec: window origins along one axis of length `L` for
window size `W` and stride `s`: origins spaced by `s` starting at 0, with a
final origin clamped so the window's far edge aligns with the volume
boundary. -/
def axisOrigins (L W s : ℕ) : List ℕ :=
  if (L - W) % s = 0 then
    (List.range ((L - W) / s + 1)).map (fun k => k * s)
  else
    ((List.range ((L - W) / s + 1)).map (fun k => k * s)) ++ [L - W]

/-- Modelled from the spec: the deterministic sequence of 3D window origins
produced by WindowTiler for a volume `shape`, window `win` and overlap
fraction `o`. -/
def origins3 (shape win : ℕ × ℕ × ℕ) (o : ℚ) : List (ℕ × ℕ × ℕ) :=
  (axisOrigins shape.1 win.1 (strideOf win.1 o)).flatMap fun x =>
    (axisOrigins shape.2.1 win.2.1 (strideOf win.2.1 o)).flatMap fun y =>
      (axisOrigins shape.2.2 win.2.2 (strideOf win.2.2 o)).map fun z => (x, y, z)

/-- A voxel `v` lies inside the window of extent `win` placed at origin
`org`. -/
def inWindow (org win v : ℕ × ℕ × ℕ) : Bool :=
  decide (org.1 ≤ v.1) && decide (v.1 < org.1 + win.1) &&
  decide (org.2.1 ≤ v.2.1) && decide (v.2.1 < org.2.1 + win.2.1) &&
  decide (org.2.2 ≤ v.2.2) && decide (v.2.2 < org.2.2 + win.2.2)

/-- All voxel indices of a volume of the given shape. -/
def allVoxels (shape : ℕ × ℕ × ℕ) : List (ℕ × ℕ × ℕ) :=
  (List.range shape.1).flatMap fun x =>
    (List.range shape.2.1).flatMap fun y =>
      (List.range shape.2.2).map fun z => (x, y, z)

/-- The window origins whose window contains voxel `v`. -/
def contributingOrigins (shape win : ℕ × ℕ × ℕ) (o : ℚ) (v : ℕ × ℕ × ℕ) :
    List (ℕ × ℕ × ℕ) :=
  (origins3 shape win o).filter fun org => inWindow org win v

/-- Modelled from the spec: MaskAccumulator's weight accumulator at voxel `v`
after all windows are processed (uniform weight 1 per contributing window). -/
def weightAt3 (shape win : ℕ × ℕ × ℕ) (o : ℚ) (v : ℕ × ℕ × ℕ) : ℕ :=
  (contributingOrigins shape win o v).length

/-- The data slice a window placed at `org` presents to the model, indexed by
in-window offset. -/
def windowData (vol : ℕ × ℕ × ℕ → ℚ) (org : ℕ × ℕ × ℕ) : ℕ × ℕ × ℕ → ℚ :=
  fun off => vol (org.1 + off.1, org.2.1 + off.2.1, org.2.2 + off.2.2)

/-- Modelled from the spec: MaskAccumulator's weighted-probability sum at
voxel `v`: the sum over contributing windows of the model's probability
output for that voxel. `model` maps a window's data slice to a per-offset
probability array. -/
def sumAt (model : (ℕ × ℕ × ℕ → ℚ) → ℕ × ℕ × ℕ → ℚ) (vol : ℕ × ℕ × ℕ → ℚ)
    (shape win : ℕ × ℕ × ℕ) (o : ℚ) (v : ℕ × ℕ × ℕ) : ℚ :=
  ((contributingOrigins shape win o v).map fun org =>
    model (windowData vol org) (v.1 - org.1, v.2.1 - org.2.1, v.2.2 - org.2.2)).sum

/-- Modelled from the spec: the final ProbabilityMap value at voxel `v`:
sum divided by weight; a voxel with zero weight is defined as
background/zero rather than a division fault. -/
def probAt (model : (ℕ × ℕ × ℕ → ℚ) → ℕ × ℕ × ℕ → ℚ) (vol : ℕ × ℕ × ℕ → ℚ)
    (shape win : ℕ × ℕ × ℕ) (o : ℚ) (v : ℕ × ℕ × ℕ) : ℚ :=
  if weightAt3 shape win o v = 0 then 0
  else sumAt model vol shape win o v / (weightAt3 shape win o v : ℚ)

/-- Modelled from the spec: `mask = probability >= threshold` at one voxel. -/
def maskAt (model : (ℕ × ℕ × ℕ → ℚ) → ℕ × ℕ × ℕ → ℚ) (vol : ℕ × ℕ × ℕ → ℚ)
    (shape win : ℕ × ℕ × ℕ) (o t : ℚ) (v : ℕ × ℕ × ℕ) : Bool :=
  decide (t ≤ probAt model vol shape win o v)

/-- Modelled from the spec: the full pipeline output, the binary Mask listed
over all voxels of the volume in the deterministic voxel order. -/
def segmentMask (model : (ℕ × ℕ × ℕ → ℚ) → ℕ × ℕ × ℕ → ℚ)
    (vol : ℕ × ℕ × ℕ → ℚ) (shape win : ℕ × ℕ × ℕ) (o t : ℚ) : List Bool :=
  (allVoxels shape).map (maskAt model vol shape win o t)

/-- Number of foreground voxels of a Mask. -/
def foregroundCount (mask : List Bool) : ℕ :=
  mask.countP id

/-- Modelled from the spec: fatal error kinds of the engine
(`AcceleratorUnavailable` is recoverable and therefore not an abort cause). -/
inductive RunError where
  | modelNotFound
  | modelLoadFailure
  | shapeMismatch
  | emptyInput

/-- Human-readable message for each fatal error kind. -/
def RunError.message : RunError → String
  | .modelNotFound => "Model file not found"
  | .modelLoadFailure => "Model could not be loaded"
  | .shapeMismatch => "Window and model input size disagree"
  | .emptyInput => "Empty or degenerate input volume"

/-- Environment facts the engine run depends on. -/
structure EngineEnv where
  inputNonEmpty : Bool
  modelPresent : Bool
  modelLoads : Bool
  shapeMatches : Bool
  acceleratorAvailable : Bool

/-- Result of one engine run: the outcome, the list of segmentations
committed to the host scene, and warnings reported through the progress
channel. -/
structure RunOutcome where
  result : Except RunError (List Bool)
  hostWrites : List (List Bool)
  warnings : List String

/-- Modelled from the spec: the error-handling skeleton of
`FootSegmentationLogic.runSegmentation` (not included in the repository
source): fatal checks abort before anything is written to the host;
an unavailable accelerator only produces a warning and falls back to CPU. -/
def runSegmentationModel (env : EngineEnv) (useGPU : Bool) (mask : List Bool) :
    RunOutcome :=
  if !env.inputNonEmpty then ⟨.error .emptyInput, [], []⟩
  else if !env.modelPresent then ⟨.error .modelNotFound, [], []⟩
  else if !env.modelLoads then ⟨.error .modelLoadFailure, [], []⟩
  else if !env.shapeMatches then ⟨.error .shapeMismatch, [], []⟩
  else
    ⟨.ok mask, [mask],
      if useGPU && !env.acceleratorAvailable then
        ["Accelerator unavailable, falling back to CPU"]
      else []⟩

/-! ## Part 2: the widget (from `FootSegmentation.py`) -/

/-- A `ctkSliderWidget` as configured in `FootSegmentationWidget.setup`:
minimum, maximum and current value. -/
structure SliderWidget where
  minimum : ℚ
  maximum : ℚ
  value : ℚ

/-- A slider accepts a new value clamped to its configured range. -/
def SliderWidget.setValue (s : SliderWidget) (v : ℚ) : SliderWidget :=
  { s with value := max s.minimum (min s.maximum v) }

/-- The model-status label text from `setup`:
`"✓ Loaded" if os.path.exists(modelPath) else "✗ Not Found"`. -/
def modelStatusText (present : Bool) : String :=
  if present then "✓ Loaded" else "✗ Not Found"

/-- State of `FootSegmentationWidget` relevant to the claims: selected node
names, parameter widgets, availability flags, and status labels. -/
structure WidgetState where
  inputVolume : Option String
  outputSegmentation : Option String
  thresholdSlider : SliderWidget
  overlapSlider : SliderWidget
  useGPUChecked : Bool
  onnxAvailable : Bool
  modelFileExists : Bool
  modelLabel : String
  statusText : String
  progressValue : ℕ

/-- The widget state right after `setup`: sliders at their configured
ranges and defaults, GPU unchecked, model label reporting file presence,
and `updateButtonState` having run once. -/
def initialWidgetState (onnx present : Bool) : WidgetState :=
  { inputVolume := none
    outputSegmentation := none
    thresholdSlider := { minimum := 1/10, maximum := 9/10, value := 1/2 }
    overlapSlider := { minimum := 1/10, maximum := 3/4, value := 1/2 }
    useGPUChecked := false
    onnxAvailable := onnx
    modelFileExists := present
    modelLabel := modelStatusText present
    statusText := if onnx then "Ready" else "ERROR: onnxruntime is not installed!"
    progressValue := 0 }

/-- `FootSegmentationWidget.updateButtonState`:
`segmentButton.enabled = inputVolume is not None and ONNX_AVAILABLE`. -/
def updateButtonState (s : WidgetState) : Bool :=
  s.inputVolume.isSome && s.onnxAvailable

/-- The argument record `onSegmentButton` passes to
`logic.runSegmentation`. -/
structure SegmentationCall where
  inputVolume : String
  outputSegmentation : String
  threshold : ℚ
  overlap : ℚ
  useGPU : Bool
  progressCallbackProvided : Bool

/-- What pressing the Segment button does before the run: either an error
dialog, or a `runSegmentation` call; the `Bool` records whether a new
output segmentation node was created. -/
inductive SegmentAction where
  | errorDisplay : String → SegmentAction
  | runCall : SegmentationCall → Bool → SegmentAction

/-- `FootSegmentationWidget.onSegmentButton`, pre-run phase, as the action
taken: with no input volume an error dialog; otherwise a call whose output
node is the selected one, or a freshly created node named
`<inputVolumeName>_Segmentation` when none is selected. -/
def onSegmentButtonAction (s : WidgetState) : SegmentAction :=
  match s.inputVolume with
  | none => .errorDisplay "Please select an input volume!"
  | some inName =>
    match s.outputSegmentation with
    | none =>
      .runCall
        { inputVolume := inName
          outputSegmentation := inName ++ "_Segmentation"
          threshold := s.thresholdSlider.value
          overlap := s.overlapSlider.value
          useGPU := s.useGPUChecked
          progressCallbackProvided := true } true
    | some outName =>
      .runCall
        { inputVolume := inName
          outputSegmentation := outName
          threshold := s.thresholdSlider.value
          overlap := s.overlapSlider.value
          useGPU := s.useGPUChecked
          progressCallbackProvided := true } false

/-- `FootSegmentationWidget.onSegmentButton`, pre-run phase, as the updated
widget state: a created output node becomes the current selection, the
status label shows "Running segmentation..." and the progress bar is
reset. -/
def onSegmentButtonPreState (s : WidgetState) : WidgetState :=
  match s.inputVolume with
  | none => s
  | some inName =>
    match s.outputSegmentation with
    | none =>
      { s with
        outputSegmentation := some (inName ++ "_Segmentation")
        statusText := "Running segmentation..."
        progressValue := 0 }
    | some _ =>
      { s with
        statusText := "Running segmentation..."
        progressValue := 0 }

/-- The `try/except` around `logic.runSegmentation` in `onSegmentButton`:
on normal return the status becomes "Completed!" and the progress bar 100;
on an exception the status becomes `"ERROR: " + str(e)`, the exception is
swallowed, and the widget writes nothing else. -/
def afterRunSegmentation (s : WidgetState) (outcome : Except String Unit) :
    WidgetState :=
  match outcome with
  | .ok _ => { s with statusText := "Completed!", progressValue := 100 }
  | .error msg => { s with statusText := "ERROR: " ++ msg }

/-! ## Helper lemmas about the tiler -/

theorem strideOf_pos (W : ℕ) (o : ℚ) : 0 < strideOf W o :=
  Nat.lt_of_lt_of_le Nat.zero_lt_one (le_max_left _ _)

theorem strideOf_le (W : ℕ) (o : ℚ) (hW : 0 < W) (ho : 0 ≤ o) :
    strideOf W o ≤ W := by
  have h1 : (W : ℚ) * (1 - o) ≤ (W : ℚ) := by
    have : (1 - o) ≤ 1 := by linarith
    calc (W : ℚ) * (1 - o) ≤ (W : ℚ) * 1 :=
          mul_le_mul_of_nonneg_left this (by positivity)
      _ = (W : ℚ) := mul_one _
  have h2 : ⌊(W : ℚ) * (1 - o)⌋₊ ≤ W := by
    calc ⌊(W : ℚ) * (1 - o)⌋₊ ≤ ⌊(W : ℚ)⌋₊ := Nat.floor_le_floor h1
      _ = W := Nat.floor_natCast W
  exact max_le hW h2

theorem mem_axisOrigins_of_le (L W s k : ℕ) (hk : k ≤ (L - W) / s) :
    k * s ∈ axisOrigins L W s := by
  have hmem : k * s ∈ (List.range ((L - W) / s + 1)).map (fun k => k * s) :=
    List.mem_map.mpr ⟨k, List.mem_range.mpr (Nat.lt_succ_of_le hk), rfl⟩
  unfold axisOrigins
  by_cases h : (L - W) % s = 0
  · simpa [h] using hmem
  · simp only [h, if_false, List.mem_append]
    exact Or.inl hmem

theorem clamped_mem_axisOrigins (L W s : ℕ) (hs : 0 < s) :
    L - W ∈ axisOrigins L W s := by
  by_cases h : (L - W) % s = 0
  · have hdvd : s ∣ L - W := Nat.dvd_of_mod_eq_zero h
    have := mem_axisOrigins_of_le L W s ((L - W) / s) le_rfl
    rwa [Nat.div_mul_cancel hdvd] at this
  · unfold axisOrigins
    simp [h]

theorem axisOrigins_covers (L W s i : ℕ) (hs : 0 < s) (hsW : s ≤ W)
    (hi : i < L) : ∃ o ∈ axisOrigins L W s, o ≤ i ∧ i < o + W := by
  by_cases hcase : i / s ≤ (L - W) / s
  · refine ⟨i / s * s, mem_axisOrigins_of_le L W s (i / s) hcase, ?_, ?_⟩
    · exact Nat.div_mul_le_self i s
    · calc i = i / s * s + i % s := (Nat.div_add_mod' i s).symm
        _ < i / s * s + s := Nat.add_lt_add_left (Nat.mod_lt i hs) _
        _ ≤ i / s * s + W := Nat.add_le_add_left hsW _
  · push_neg at hcase
    refine ⟨L - W, clamped_mem_axisOrigins L W s hs, ?_, by omega⟩
    calc L - W = (L - W) / s * s + (L - W) % s := (Nat.div_add_mod' _ s).symm
      _ ≤ (L - W) / s * s + s :=
          Nat.add_le_add_left (le_of_lt (Nat.mod_lt _ hs)) _
      _ = ((L - W) / s + 1) * s := by ring
      _ ≤ i / s * s := mul_le_mul_right' (Nat.succ_le_of_lt hcase) s
      _ ≤ i := Nat.div_mul_le_self i s

theorem axisOrigins_self (L s : ℕ) : axisOrigins L L s = [0] := by
  simp [axisOrigins, Nat.sub_self, List.range_succ]

theorem mem_origins3 {shape win : ℕ × ℕ × ℕ} {o : ℚ} {x y z : ℕ} :
    (x, y, z) ∈ origins3 shape win o ↔
      x ∈ axisOrigins shape.1 win.1 (strideOf win.1 o) ∧
      y ∈ axisOrigins shape.2.1 win.2.1 (strideOf win.2.1 o) ∧
      z ∈ axisOrigins shape.2.2 win.2.2 (strideOf win.2.2 o) := by
  simp only [origins3, List.mem_flatMap, List.mem_map, Prod.mk.injEq]
  constructor
  · rintro ⟨a, ha, b, hb, c, hc, rfl, rfl, rfl⟩
    exact ⟨ha, hb, hc⟩
  · rintro ⟨hx, hy, hz⟩
    exact ⟨x, hx, y, hy, z, hz, rfl, rfl, rfl⟩

theorem mem_allVoxels {shape : ℕ × ℕ × ℕ} {x y z : ℕ} :
    (x, y, z) ∈ allVoxels shape ↔
      x < shape.1 ∧ y < shape.2.1 ∧ z < shape.2.2 := by
  simp only [allVoxels, List.mem_flatMap, List.mem_map, List.mem_range,
    Prod.mk.injEq]
  constructor
  · rintro ⟨a, ha, b, hb, c, hc, rfl, rfl, rfl⟩
    exact ⟨ha, hb, hc⟩
  · rintro ⟨hx, hy, hz⟩
    exact ⟨x, hx, y, hy, z, hz, rfl, rfl, rfl⟩

theorem weightAt3_pos_of_covered {shape win : ℕ × ℕ × ℕ} {o : ℚ}
    {v : ℕ × ℕ × ℕ} (h : ∃ org ∈ origins3 shape win o, inWindow org win v = true) :
    0 < weightAt3 shape win o v := by
  obtain ⟨org, horg, hin⟩ := h
  exact List.length_pos.mpr
    (List.ne_nil_of_mem (List.mem_filter.mpr ⟨horg, hin⟩))

theorem sum_map_const {α : Type} (l : List α) (c : ℚ) :
    (l.map fun _ => c).sum = l.length * c := by
  induction l with
  | nil => simp
  | cons a l ih => simp [ih]; ring

/-! ## Claim theorems: engine -/

/-- C1: for every volume shape and every overlap fraction in (0,1), the union
of the window extents produced by WindowTiler covers every voxel of the
volume, so the MaskAccumulator weight accumulator is strictly positive at
every voxel after tiling; and at any voxel whose weight is nonetheless zero
the probability output is defined as background/zero rather than a division
fault. -/
theorem tiler_coverage_weight_positive (shape win : ℕ × ℕ × ℕ) (o : ℚ)
    (hw1 : 0 < win.1) (hw2 : 0 < win.2.1) (hw3 : 0 < win.2.2)
    (ho0 : 0 < o) (ho1 : o < 1) :
    (∀ v ∈ allVoxels shape,
      ∃ org ∈ origins3 shape win o, inWindow org win v = true) ∧
    (∀ v ∈ allVoxels shape, 0 < weightAt3 shape win o v) ∧
    (∀ model vol v, weightAt3 shape win o v = 0 →
      probAt model vol shape win o v = 0) := by
  have cover : ∀ v ∈ allVoxels shape,
      ∃ org ∈ origins3 shape win o, inWindow org win v = true := by
    rintro ⟨x, y, z⟩ hv
    rw [mem_allVoxels] at hv
    obtain ⟨ox, hox, hox1, hox2⟩ :=
      axisOrigins_covers shape.1 win.1 (strideOf win.1 o) x
        (strideOf_pos _ _) (strideOf_le _ _ hw1 ho0.le) hv.1
    obtain ⟨oy, hoy, hoy1, hoy2⟩ :=
      axisOrigins_covers shape.2.1 win.2.1 (strideOf win.2.1 o) y
        (strideOf_pos _ _) (strideOf_le _ _ hw2 ho0.le) hv.2.1
    obtain ⟨oz, hoz, hoz1, hoz2⟩ :=
      axisOrigins_covers shape.2.2 win.2.2 (strideOf win.2.2 o) z
        (strideOf_pos _ _) (strideOf_le _ _ hw3 ho0.le) hv.2.2
    refine ⟨(ox, oy, oz), mem_origins3.mpr ⟨hox, hoy, hoz⟩, ?_⟩
    simp only [inWindow, Bool.and_eq_true, decide_eq_true_eq]
    exact ⟨⟨⟨⟨⟨hox1, hox2⟩, hoy1⟩, hoy2⟩, hoz1⟩, hoz2⟩
  refine ⟨cover, fun v hv => weightAt3_pos_of_covered (cover v hv), ?_⟩
  intro model vol v h
  simp [probAt, h]

/-- Witness for C1 at the configuration shape (4,4,4), window (2,2,2),
overlap 1/2, voxel (3,0,2). -/
theorem tiler_coverage_weight_positive_witness :
    0 < weightAt3 (4, 4, 4) (2, 2, 2) (1/2) (3, 0, 2) :=
  (tiler_coverage_weight_positive (4, 4, 4) (2, 2, 2) (1/2)
    (by decide) (by decide) (by decide) (by norm_num) (by norm_num)).2.1
    (3, 0, 2) (by decide)

/-- C3: for volume (64,64,64), window (32,32,32), overlap 0.5, the stride is
16 per axis, the per-axis window origins are exactly [0, 16, 32], and no
window of the 3D tiling exceeds the volume bounds. -/
theorem tiler_scenario_64 :
    strideOf 32 (1/2) = 16 ∧
    axisOrigins 64 32 (strideOf 32 (1/2)) = [0, 16, 32] ∧
    (origins3 (64, 64, 64) (32, 32, 32) (1/2)).all
      (fun org => decide (org.1 + 32 ≤ 64) && decide (org.2.1 + 32 ≤ 64) &&
        decide (org.2.2 + 32 ≤ 64)) = true := by
  have hs : strideOf 32 (1/2) = 16 := by
    have h : ((32 : ℕ) : ℚ) * (1 - 1/2) = ((16 : ℕ) : ℚ) := by norm_num
    rw [strideOf, h, Nat.floor_natCast]
    rfl
  refine ⟨hs, ?_, ?_⟩
  · rw [hs]; decide
  · simp only [origins3, hs]
    decide

/-- C4: for a fixed input volume and configuration, raising the threshold
never increases the foreground voxel count; and with threshold 0.5 and a
uniform probability map of 0.4 (a model emitting 2/5 everywhere) the Mask is
all-background. -/
theorem threshold_monotone :
    (∀ model vol shape win (o t1 t2 : ℚ), t1 ≤ t2 →
      foregroundCount (segmentMask model vol shape win o t2) ≤
        foregroundCount (segmentMask model vol shape win o t1)) ∧
    (∀ vol shape win (o : ℚ),
      foregroundCount
        (segmentMask (fun _ _ => (2 : ℚ)/5) vol shape win o (1/2)) = 0) := by
  constructor
  · intro model vol shape win o t1 t2 h12
    simp only [segmentMask, foregroundCount, List.countP_map]
    apply List.countP_mono_left
    intro v _ hv
    simp only [Function.comp_apply, id_eq, maskAt, decide_eq_true_eq] at hv ⊢
    exact le_trans h12 hv
  · intro vol shape win o
    simp only [segmentMask, foregroundCount, List.countP_map]
    rw [List.countP_eq_zero]
    intro v _
    have hp : probAt (fun _ _ => (2 : ℚ)/5) vol shape win o v < 1/2 := by
      rw [probAt]
      by_cases h : weightAt3 shape win o v = 0
      · rw [if_pos h]; norm_num
      · rw [if_neg h]
        have hlen : (weightAt3 shape win o v : ℚ) ≠ 0 := Nat.cast_ne_zero.mpr h
        have hsum : sumAt (fun _ _ => (2 : ℚ)/5) vol shape win o v =
            (weightAt3 shape win o v : ℚ) * (2/5) := by
          simp only [sumAt, weightAt3]
          rw [sum_map_const]
        rw [hsum, mul_div_cancel_left₀ _ hlen]
        norm_num
    simp only [Function.comp_apply, id_eq, maskAt, decide_eq_true_eq, not_le]
    exact hp

/-- Witness for C4: raising the threshold from 1/4 to 3/4 on a concrete small
configuration does not increase the foreground count. -/
theorem threshold_monotone_witness :
    foregroundCount
      (segmentMask (fun _ _ => (1 : ℚ)/2) (fun _ => 0) (2, 2, 2) (2, 2, 2)
        (1/2) (3/4)) ≤
    foregroundCount
      (segmentMask (fun _ _ => (1 : ℚ)/2) (fun _ => 0) (2, 2, 2) (2, 2, 2)
        (1/2) (1/4)) :=
  threshold_monotone.1 _ _ _ _ _ _ _ (by norm_num)

/-- C5: the pipeline is a pure function of the model, volume and
configuration: two runs on identical input and identical configuration yield
an identical Mask, and the tiler's window ordering is likewise
deterministic. -/
theorem pipeline_deterministic
    (model : (ℕ × ℕ × ℕ → ℚ) → ℕ × ℕ × ℕ → ℚ) (vol1 vol2 : ℕ × ℕ × ℕ → ℚ)
    (shape1 shape2 win1 win2 : ℕ × ℕ × ℕ) (o1 o2 t1 t2 : ℚ)
    (hv : vol1 = vol2) (hsh : shape1 = shape2) (hw : win1 = win2)
    (ho : o1 = o2) (ht : t1 = t2) :
    segmentMask model vol1 shape1 win1 o1 t1 =
      segmentMask model vol2 shape2 win2 o2 t2 ∧
    origins3 shape1 win1 o1 = origins3 shape2 win2 o2 := by
  subst hv hsh hw ho ht
  exact ⟨rfl, rfl⟩

/-- Witness for C5 at a concrete model, volume and configuration. -/
theorem pipeline_deterministic_witness :
    segmentMask (fun _ _ => (1 : ℚ)/2) (fun _ => 0) (2, 2, 2) (2, 2, 2)
        (1/2) (1/2) =
      segmentMask (fun _ _ => (1 : ℚ)/2) (fun _ => 0) (2, 2, 2) (2, 2, 2)
        (1/2) (1/2) ∧
    origins3 (2, 2, 2) (2, 2, 2) (1/2) = origins3 (2, 2, 2) (2, 2, 2) (1/2) :=
  pipeline_deterministic _ _ _ _ _ _ _ _ _ _ _ rfl rfl rfl rfl rfl

/-- C6: a volume whose shape exactly equals the window shape (cubic or not)
produces exactly one window, at origin zero, for every overlap value in the
accepted range, and every voxel is covered exactly once (zero overlap). -/
theorem single_window_when_equal (win : ℕ × ℕ × ℕ) (o : ℚ)
    (ho0 : 1/10 ≤ o) (ho1 : o ≤ 3/4) :
    origins3 win win o = [(0, 0, 0)] ∧
    ∀ v ∈ allVoxels win, weightAt3 win win o v = 1 := by
  obtain ⟨a, b, c⟩ := win
  have h0 : origins3 (a, b, c) (a, b, c) o = [(0, 0, 0)] := by
    simp [origins3, axisOrigins_self]
  refine ⟨h0, ?_⟩
  rintro ⟨x, y, z⟩ hv
  rw [mem_allVoxels] at hv
  have h1 : x < a := hv.1
  have h2 : y < b := hv.2.1
  have h3 : z < c := hv.2.2
  have hin : inWindow (0, 0, 0) (a, b, c) (x, y, z) = true := by
    simp only [inWindow, Bool.and_eq_true, decide_eq_true_eq]
    refine ⟨⟨⟨⟨⟨?_, ?_⟩, ?_⟩, ?_⟩, ?_⟩, ?_⟩ <;> omega
  simp only [weightAt3, contributingOrigins, h0]
  have hfilter : ([(0, 0, 0)] : List (ℕ × ℕ × ℕ)).filter
      (fun org => inWindow org (a, b, c) (x, y, z)) = [(0, 0, 0)] := by
    rw [List.filter_cons, List.filter_nil, if_pos hin]
  rw [hfilter]
  rfl

/-- Witness for C6 at the non-cubic shape (6, 4, 3) and overlap 1/2. -/
theorem single_window_when_equal_witness :
    origins3 (6, 4, 3) (6, 4, 3) (1/2) = [(0, 0, 0)] ∧
    weightAt3 (6, 4, 3) (6, 4, 3) (1/2) (5, 2, 1) = 1 :=
  ⟨(single_window_when_equal (6, 4, 3) (1/2) (by norm_num) (by norm_num)).1,
   (single_window_when_equal (6, 4, 3) (1/2) (by norm_num)
     (by norm_num)).2 (5, 2, 1) (by decide)⟩

/-! ## Claim theorems: widget -/

/-- C2 counterexample: the claim "model file not found disables the run
(Segment) action" is false on the code: with the model file absent but an
input volume selected and onnxruntime available, `updateButtonState` still
enables the Segment button. -/
theorem model_absent_still_enabled :
    ¬ (∀ s : WidgetState, s.modelFileExists = false →
        updateButtonState s = false) := by
  intro h
  have := h
    { inputVolume := some "Volume"
      outputSegmentation := none
      thresholdSlider := { minimum := 1/10, maximum := 9/10, value := 1/2 }
      overlapSlider := { minimum := 1/10, maximum := 3/4, value := 1/2 }
      useGPUChecked := false
      onnxAvailable := true
      modelFileExists := false
      modelLabel := "✗ Not Found"
      statusText := "Ready"
      progressValue := 0 } rfl
  simp [updateButtonState] at this

/-- C2 (amended): at startup the widget reports whether the model artifact
file is present or absent via the model status label, and absence is
non-fatal; however it does not disable the Segment action: the button is
enabled exactly when an input volume is selected and onnxruntime is
available, independently of model file presence. -/
theorem model_status_reporting (onnx b : Bool) (s : WidgetState) :
    (initialWidgetState onnx false).modelLabel = "✗ Not Found" ∧
    (initialWidgetState onnx true).modelLabel = "✓ Loaded" ∧
    updateButtonState { s with modelFileExists := b } = updateButtonState s ∧
    (updateButtonState s = true ↔
      s.inputVolume.isSome = true ∧ s.onnxAvailable = true) := by
  refine ⟨rfl, rfl, rfl, ?_⟩
  simp [updateButtonState]

/-- C7: the sliders restrict `threshold` to 0.1–0.9 and `overlap` to
0.1–0.75, both defaulting to 0.5, the accelerator flag is a boolean
defaulting to false, and `onSegmentButton` passes the slider values, the GPU
flag and the progress callback through to `runSegmentation`. -/
theorem caller_parameters (onnx present : Bool) (s : WidgetState)
    (inName : String) (hin : s.inputVolume = some inName) :
    (initialWidgetState onnx present).thresholdSlider =
      { minimum := 1/10, maximum := 9/10, value := 1/2 } ∧
    (initialWidgetState onnx present).overlapSlider =
      { minimum := 1/10, maximum := 3/4, value := 1/2 } ∧
    (initialWidgetState onnx present).useGPUChecked = false ∧
    ∃ call created, onSegmentButtonAction s = .runCall call created ∧
      call.threshold = s.thresholdSlider.value ∧
      call.overlap = s.overlapSlider.value ∧
      call.useGPU = s.useGPUChecked ∧
      call.progressCallbackProvided = true := by
  refine ⟨rfl, rfl, rfl, ?_⟩
  cases houtp : s.outputSegmentation with
  | none =>
    refine ⟨{ inputVolume := inName,
              outputSegmentation := inName ++ "_Segmentation",
              threshold := s.thresholdSlider.value,
              overlap := s.overlapSlider.value,
              useGPU := s.useGPUChecked,
              progressCallbackProvided := true }, true, ?_, rfl, rfl, rfl, rfl⟩
    simp only [onSegmentButtonAction, hin, houtp]
  | some outName =>
    refine ⟨{ inputVolume := inName,
              outputSegmentation := outName,
              threshold := s.thresholdSlider.value,
              overlap := s.overlapSlider.value,
              useGPU := s.useGPUChecked,
              progressCallbackProvided := true }, false, ?_, rfl, rfl, rfl, rfl⟩
    simp only [onSegmentButtonAction, hin, houtp]

/-- Witness for C7 at a concrete widget state with an input volume named
"Foot" selected. -/
theorem caller_parameters_witness :
    (initialWidgetState true true).thresholdSlider =
      { minimum := 1/10, maximum := 9/10, value := 1/2 } ∧
    (initialWidgetState true true).overlapSlider =
      { minimum := 1/10, maximum := 3/4, value := 1/2 } ∧
    (initialWidgetState true true).useGPUChecked = false ∧
    ∃ call created,
      onSegmentButtonAction
        { inputVolume := some "Foot"
          outputSegmentation := none
          thresholdSlider := { minimum := 1/10, maximum := 9/10, value := 1/2 }
          overlapSlider := { minimum := 1/10, maximum := 3/4, value := 1/2 }
          useGPUChecked := false
          onnxAvailable := true
          modelFileExists := true
          modelLabel := "✓ Loaded"
          statusText := "Ready"
          progressValue := 0 } = .runCall call created ∧
      call.threshold = 1/2 ∧
      call.overlap = 1/2 ∧
      call.useGPU = false ∧
      call.progressCallbackProvided = true :=
  caller_parameters true true
    { inputVolume := some "Foot"
      outputSegmentation := none
      thresholdSlider := { minimum := 1/10, maximum := 9/10, value := 1/2 }
      overlapSlider := { minimum := 1/10, maximum := 3/4, value := 1/2 }
      useGPUChecked := false
      onnxAvailable := true
      modelFileExists := true
      modelLabel := "✓ Loaded"
      statusText := "Ready"
      progressValue := 0 } "Foot" rfl

/-- C8: every fatal error (EmptyInput, ModelNotFound, ModelLoadFailure,
ShapeMismatch) aborts the run with no partial output written to the host and
a nonempty human-readable message, while an unavailable accelerator does not
abort: with all fatal conditions absent the run succeeds, commits exactly
the final mask, and only reports a fallback warning. -/
theorem fatal_errors_abort (env : EngineEnv) (useGPU : Bool)
    (mask : List Bool) :
    (∀ e : RunError, (runSegmentationModel env useGPU mask).result = .error e →
      (runSegmentationModel env useGPU mask).hostWrites = [] ∧
      e.message ≠ "") ∧
    (env.inputNonEmpty = true → env.modelPresent = true →
      env.modelLoads = true → env.shapeMatches = true →
      (runSegmentationModel env useGPU mask).result = .ok mask ∧
      (runSegmentationModel env useGPU mask).hostWrites = [mask] ∧
      (runSegmentationModel env useGPU mask).warnings =
        (if useGPU && !env.acceleratorAvailable then
          ["Accelerator unavailable, falling back to CPU"] else [])) := by
  obtain ⟨ne, mp, ml, sm, acc⟩ := env
  constructor
  · intro e he
    constructor
    · revert he
      cases ne <;> cases mp <;> cases ml <;> cases sm <;>
        simp [runSegmentationModel]
    · cases e <;> (rw [RunError.message]; decide)
  · intro h1 h2 h3 h4
    subst h1; subst h2; subst h3; subst h4
    exact ⟨rfl, rfl, rfl⟩

/-- Witness for C8: with no fatal condition and the accelerator unavailable,
the run still succeeds, commits its mask, and reports the CPU fallback. -/
theorem fatal_errors_abort_witness :
    (runSegmentationModel ⟨true, true, true, true, false⟩ true
      [true]).result = .ok [true] ∧
    (runSegmentationModel ⟨true, true, true, true, false⟩ true
      [true]).hostWrites = [[true]] ∧
    (runSegmentationModel ⟨true, true, true, true, false⟩ true
      [true]).warnings = ["Accelerator unavailable, falling back to CPU"] :=
  (fatal_errors_abort ⟨true, true, true, true, false⟩ true [true]).2
    rfl rfl rfl rfl

/-- C9: pressing Segment with an input volume selected but no output
segmentation selected creates a node named `<inputVolumeName>_Segmentation`,
makes it the current output selection, and proceeds with the run. -/
theorem auto_create_output (s : WidgetState) (inName : String)
    (hin : s.inputVolume = some inName)
    (hout : s.outputSegmentation = none) :
    (onSegmentButtonPreState s).outputSegmentation =
      some (inName ++ "_Segmentation") ∧
    (onSegmentButtonPreState s).statusText = "Running segmentation..." ∧
    ∃ call, onSegmentButtonAction s = .runCall call true ∧
      call.inputVolume = inName ∧
      call.outputSegmentation = inName ++ "_Segmentation" := by
  refine ⟨?_, ?_,
    ⟨{ inputVolume := inName,
       outputSegmentation := inName ++ "_Segmentation",
       threshold := s.thresholdSlider.value,
       overlap := s.overlapSlider.value,
       useGPU := s.useGPUChecked,
       progressCallbackProvided := true }, ?_, rfl, rfl⟩⟩ <;>
    simp only [onSegmentButtonPreState, onSegmentButtonAction, hin, hout]

/-- Witness for C9 at a concrete widget state. -/
theorem auto_create_output_witness :
    (onSegmentButtonPreState
      { inputVolume := some "Foot"
        outputSegmentation := none
        thresholdSlider := { minimum := 1/10, maximum := 9/10, value := 1/2 }
        overlapSlider := { minimum := 1/10, maximum := 3/4, value := 1/2 }
        useGPUChecked := false
        onnxAvailable := true
        modelFileExists := true
        modelLabel := "✓ Loaded"
        statusText := "Ready"
        progressValue := 0 }).outputSegmentation =
      some "Foot_Segmentation" ∧
    (onSegmentButtonPreState
      { inputVolume := some "Foot"
        outputSegmentation := none
        thresholdSlider := { minimum := 1/10, maximum := 9/10, value := 1/2 }
        overlapSlider := { minimum := 1/10, maximum := 3/4, value := 1/2 }
        useGPUChecked := false
        onnxAvailable := true
        modelFileExists := true
        modelLabel := "✓ Loaded"
        statusText := "Ready"
        progressValue := 0 }).statusText = "Running segmentation..." ∧
    ∃ call, onSegmentButtonAction
      { inputVolume := some "Foot"
        outputSegmentation := none
        thresholdSlider := { minimum := 1/10, maximum := 9/10, value := 1/2 }
        overlapSlider := { minimum := 1/10, maximum := 3/4, value := 1/2 }
        useGPUChecked := false
        onnxAvailable := true
        modelFileExists := true
        modelLabel := "✓ Loaded"
        statusText := "Ready"
        progressValue := 0 } = .runCall call true ∧
      call.inputVolume = "Foot" ∧
      call.outputSegmentation = "Foot_Segmentation" :=
  auto_create_output
    { inputVolume := some "Foot"
      outputSegmentation := none
      thresholdSlider := { minimum := 1/10, maximum := 9/10, value := 1/2 }
      overlapSlider := { minimum := 1/10, maximum := 3/4, value := 1/2 }
      useGPUChecked := false
      onnxAvailable := true
      modelFileExists := true
      modelLabel := "✓ Loaded"
      statusText := "Ready"
      progressValue := 0 } "Foot" rfl rfl

/-- C10: if `runSegmentation` raises, the widget swallows the exception and
sets the status label to `"ERROR: <message>"` without touching the progress
bar; "Completed!" and progress 100 are set only on a normal return. -/
theorem run_exception_handling (s : WidgetState) (msg : String) :
    (afterRunSegmentation s (.error msg)).statusText = "ERROR: " ++ msg ∧
    (afterRunSegmentation s (.error msg)).progressValue = s.progressValue ∧
    (afterRunSegmentation s (.ok ())).statusText = "Completed!" ∧
    (afterRunSegmentation s (.ok ())).progressValue = 100 :=
  ⟨rfl, rfl, rfl, rfl⟩
